import Mathlib

/-!
Shallow embedding of the ecologits-go impact-estimation core.

Go `float64` arithmetic is modelled over `ℚ` (exact rationals); decimal
literals such as `1.96` or `8.02e-4` are exact. Fallible Go functions
returning `(T, error)` are modelled as `T × Option String`, where the
second component is the error (`none` = nil error) and the first is the
value Go returns alongside it (the zero value on failure, exactly as in
the source). Functions returning `(*T, error)` are modelled as
`Except String T`.
-/

namespace common

/-- Go `common.RangeValue`: a `[Min,Max]` pair of floats. -/
structure RangeValue where
  Min : ℚ
  Max : ℚ
deriving DecidableEq, Repr

end common

namespace server

open common

/-- Go `server.GPU` from src/server/server.go. -/
structure GPU where
  EnergyAlpha : ℚ
  EnergyBeta : ℚ
  EnergyStdev : ℚ
  LatencyAlpha : ℚ
  LatencyBeta : ℚ
  LatencyStdev : ℚ
  AvailMemoryGB : ℚ
  EmbodiedImpactADPe : ℚ
  EmbodiedImpactGWP : ℚ
  EmbodiedImpactPE : ℚ
deriving DecidableEq, Repr

/-- Go `server.ServerInfra` from src/server/server.go. -/
structure ServerInfra where
  AvailableGpuCount : ℤ
  PowerConsumptionKW : ℚ
  EmbodiedImpactADPe : ℚ
  EmbodiedImpactGWP : ℚ
  EmbodiedImpactPE : ℚ
  HardwareLifespan : ℤ
  Gpu : GPU
  DatacenterPue : ℚ
deriving DecidableEq, Repr

/-- Go `(*ServerInfra).GpuRequiredCount` (src/server/server.go:94-102):
`int(math.Ceil(modelRequiredMemory / s.Gpu.AvailMemoryGB))` guarded by
positivity checks on both operands. -/
def GpuRequiredCount (s : ServerInfra) (modelRequiredMemory : ℚ) : ℤ × Option String :=
  if modelRequiredMemory ≤ 0 then
    (0, some "model required memory must be greater than 0")
  else if s.Gpu.AvailMemoryGB ≤ 0 then
    (0, some "available GPU count must be greater than 0")
  else
    (⌈modelRequiredMemory / s.Gpu.AvailMemoryGB⌉, none)

/-- Go `(*ServerInfra).ServerEnergyBaseline` (src/server/server.go:105-116):
`(latency/3600) * powerKW * (gpuRequiredCount / availableGpuCount)`. -/
def ServerEnergyBaseline (s : ServerInfra) (tokenGenLatencySeconds : ℚ)
    (gpuRequiredCount : ℤ) : ℚ × Option String :=
  if tokenGenLatencySeconds ≤ 0 then
    (0, some "token generation latency must be greater than 0")
  else if gpuRequiredCount ≤ 0 ∨ s.AvailableGpuCount < gpuRequiredCount then
    (0, some "gpuRequiredCount must be between 1 and the number of available GPUs")
  else if s.PowerConsumptionKW ≤ 0 then
    (0, some "power consumption must be greater than 0")
  else
    ((tokenGenLatencySeconds / 3600) * s.PowerConsumptionKW *
      ((gpuRequiredCount : ℚ) / (s.AvailableGpuCount : ℚ)), none)

/-- Go `(*ServerInfra).GpuEnergy` (src/server/server.go:123-143): 95% confidence
interval of the per-request GPU energy, lower bound clipped at zero. -/
def GpuEnergy (s : ServerInfra) (modelActiveParameterCount : ℚ)
    (outputTokenCount : ℚ) : RangeValue × Option String :=
  if modelActiveParameterCount ≤ 0 then
    (⟨0, 0⟩, some "modelActiveParameterCount must be greater than 0")
  else if outputTokenCount ≤ 0 then
    (⟨0, 0⟩, some "outputTokenCount must be greater than 0")
  else if s.Gpu.EnergyAlpha ≤ 0 ∨ s.Gpu.EnergyBeta ≤ 0 ∨ s.Gpu.EnergyStdev ≤ 0 then
    (⟨0, 0⟩, some "GPU energy parameters must be greater than 0")
  else
    let gpuEnergyPerTokenMean := s.Gpu.EnergyAlpha * modelActiveParameterCount + s.Gpu.EnergyBeta
    let gpuEnergyMin := outputTokenCount * (gpuEnergyPerTokenMean - 1.96 * s.Gpu.EnergyStdev)
    let gpuEnergyMax := outputTokenCount * (gpuEnergyPerTokenMean + 1.96 * s.Gpu.EnergyStdev)
    (⟨max 0 gpuEnergyMin, gpuEnergyMax⟩, none)

/-- Go `(*ServerInfra).GenerationLatency` (src/server/server.go:159-198): the
confidence-interval latency estimate, collapsed to the measured request
latency when the estimate does not fit strictly below it. (The two
`fmt.Println` debug lines in the source are pure output and not modelled.) -/
def GenerationLatency (s : ServerInfra) (modelActiveParameterCount : ℚ)
    (outputTokenCount : ℚ) (requestLatency : ℚ) : RangeValue × Option String :=
  if modelActiveParameterCount ≤ 0 then
    (⟨0, 0⟩, some "modelActiveParameterCount must be greater than 0")
  else if outputTokenCount ≤ 0 then
    (⟨0, 0⟩, some "outputTokenCount must be greater than 0")
  else if requestLatency ≤ 0 then
    (⟨0, 0⟩, some "requestLatency must be greater than 0")
  else if s.Gpu.LatencyAlpha ≤ 0 ∨ s.Gpu.LatencyBeta ≤ 0 ∨ s.Gpu.LatencyStdev ≤ 0 then
    (⟨0, 0⟩, some "GPU latency parameters must be greater than 0")
  else if s.AvailableGpuCount ≤ 0 then
    (⟨0, 0⟩, some "AvailableGpuCount must be greater than 0")
  else if s.PowerConsumptionKW ≤ 0 then
    (⟨0, 0⟩, some "PowerConsumptionKW must be greater than 0")
  else
    let gpuLatencyPerTokenMean := s.Gpu.LatencyAlpha * modelActiveParameterCount + s.Gpu.LatencyBeta
    let gpuLatencyMin := outputTokenCount * (gpuLatencyPerTokenMean - 1.96 * s.Gpu.LatencyStdev)
    let gpuLatencyMax := outputTokenCount * (gpuLatencyPerTokenMean + 1.96 * s.Gpu.LatencyStdev)
    let gpuLatencyInterval : RangeValue := ⟨max 0 gpuLatencyMin, gpuLatencyMax⟩
    if gpuLatencyInterval.Max < requestLatency then
      (gpuLatencyInterval, none)
    else
      (⟨requestLatency, requestLatency⟩, none)

/-- Go `(*ServerInfra).RequestEnergy` (src/server/server.go:207-225):
`datacenterPUE * (serverEnergy + gpuRequiredCount * gpuEnergy)` applied to
each bound of the GPU-energy range independently. -/
def RequestEnergy (s : ServerInfra) (serverEnergy : ℚ) (gpuRequiredCount : ℤ)
    (gpuEnergy : RangeValue) : RangeValue × Option String :=
  if serverEnergy ≤ 0 then
    (⟨0, 0⟩, some "serverEnergy must be greater than 0")
  else if gpuRequiredCount ≤ 0 ∨ s.AvailableGpuCount < gpuRequiredCount then
    (⟨0, 0⟩, some "gpuRequiredCount must be between 1 and the number of available GPUs")
  else if gpuEnergy.Min < 0 ∨ gpuEnergy.Max < 0 then
    (⟨0, 0⟩, some "gpuEnergy values must be non-negative")
  else
    (⟨s.DatacenterPue * (serverEnergy + (gpuRequiredCount : ℚ) * gpuEnergy.Min),
      s.DatacenterPue * (serverEnergy + (gpuRequiredCount : ℚ) * gpuEnergy.Max)⟩, none)

end server

namespace request

open common

/-- Go `request.Request` from src/request/request.go. -/
structure Request where
  OutputTokenCount : ℚ
  Latency : ℚ
  Geo : String
deriving DecidableEq, Repr

/-- Go `request.ElectricityMix` from src/request/request.go. -/
structure ElectricityMix where
  ADPe : ℚ
  GWP : ℚ
  PE : ℚ
deriving DecidableEq, Repr

/-- Go `(*Request).GetElectricityMix` (src/request/request.go:15-23): a fixed
USA placeholder multiplier set regardless of the geography. -/
def GetElectricityMix (_r : Request) : ElectricityMix :=
  { ADPe := 0.0000000985548, GWP := 0.67978, PE := 11.358 }

end request

namespace aimodel

open common

/-- Go `aimodel.Warning` from src/request/request.go. -/
structure Warning where
  Code : String
  Message : String
deriving DecidableEq, Repr

/-- Go `aimodel.Alias` from src/request/request.go. -/
structure Alias where
  Provider : String
  Name : String
  Alias : String
deriving DecidableEq, Repr

/-- Go `aimodel.Parameters` from src/request/request.go: active and total
parameter counts in billions, each a range. -/
structure Parameters where
  Active : RangeValue
  Total : RangeValue
deriving DecidableEq, Repr

/-- Go `aimodel.Architecture` from src/request/request.go. The Go field `Type`
is rendered `type0` because `Type` is reserved in Lean. -/
structure Architecture where
  type0 : String
  Parameters : Parameters
deriving DecidableEq, Repr

/-- Go `aimodel.AIModel` from src/request/request.go. The Go `Provider` string
type is rendered as `String`. -/
structure AIModel where
  name : String
  provider : String
  architecture : Architecture
  warnings : List Warning
  sources : List String
  quantizationBits : ℚ
deriving DecidableEq, Repr

/-- Go `aimodel.ModelData` from src/request/request.go. -/
structure ModelData where
  Aliases : List Alias
  Models : List AIModel
deriving DecidableEq, Repr

/-- The zero value of `aimodel.AIModel` (what a Go map lookup yields for an
absent key): empty strings, zero ranges, empty lists, zero quantization. -/
def emptyAIModel : AIModel :=
  { name := "", provider := "",
    architecture := { type0 := "", Parameters := { Active := ⟨0, 0⟩, Total := ⟨0, 0⟩ } },
    warnings := [], sources := [], quantizationBits := 0 }

/-- Go `(*AIModel).ModelRequiredMemory` (src/request/request.go:201-203):
`1.2 * totalParameters.Max * quantizationBits / 8`. -/
def ModelRequiredMemory (a : AIModel) : ℚ :=
  1.2 * a.architecture.Parameters.Total.Max * a.quantizationBits / 8

/-- One Go-map insertion: overwrite the binding if the key exists, append
otherwise. -/
def mapUpsert (m : List (String × AIModel)) (k : String) (v : AIModel) :
    List (String × AIModel) :=
  if m.any (fun p => p.1 == k) then
    m.map (fun p => if p.1 == k then (k, v) else p)
  else
    m ++ [(k, v)]

/-- Go `CreateModelsMap` (src/request/request.go:343-351): builds a name-keyed
map of the models; a later model with the same name overwrites the earlier
one, as in a Go map. The error component is always nil in the source. -/
def CreateModelsMap (models : ModelData) : List (String × AIModel) × Option String :=
  (models.Models.foldl (fun acc m => mapUpsert acc m.name m) [], none)

/-- Go map indexing `modelsMap[name]`: the stored value, or the zero value
when the key is absent. -/
def mapGetD (m : List (String × AIModel)) (k : String) : AIModel :=
  match m.lookup k with
  | some v => v
  | none => emptyAIModel

/-- Go `NewAIModel` (src/request/request.go:147-178), shallowly embedded over
the already-fetched catalog: the one-time file read performed by
`FetchAIModels` is an out-of-scope external collaborator, so the parsed
`ModelData` is passed as a parameter. Mirrors the source exactly: empty
name/provider are rejected, the model is looked up in the name-keyed map
(zero value if absent), and `quantizationBits` is defaulted to 8 when the
stored value is zero. -/
def NewAIModel (name provider : String) (models : ModelData) : Except String AIModel :=
  if name = "" then .error "name cannot be empty"
  else if provider = "" then .error "provider cannot be empty"
  else
    match CreateModelsMap models with
    | (_, some e) => .error e
    | (modelsMap, none) =>
      let model := mapGetD modelsMap name
      let model := if model.quantizationBits = 0 then { model with quantizationBits := 8 } else model
      .ok model

/-- JSON values as seen by fastjson, restricted to the shapes the catalog
parser distinguishes: numbers, objects (ordered field lists), strings,
booleans (fastjson has distinct true/false types), arrays, null. -/
inductive JVal where
  | num (v : ℚ)
  | str (s : String)
  | boolTrue
  | boolFalse
  | arr (elems : List JVal)
  | obj (fields : List (String × JVal))
  | nul

/-- The name fastjson prints for each value type. -/
def typeName : JVal → String
  | .num _ => "number"
  | .str _ => "string"
  | .boolTrue => "true"
  | .boolFalse => "false"
  | .arr _ => "array"
  | .obj _ => "object"
  | .nul => "null"

/-- Go `(*fastjson.Value).Float64`: succeeds only on numbers. -/
def jfloat64 : JVal → Except String ℚ
  | .num v => .ok v
  | v => .error ("value does not contain number; it contains " ++ typeName v)

/-- Go `(*fastjson.Value).Exists(k)` for an object field list. -/
def jexists (fields : List (String × JVal)) (k : String) : Bool :=
  (fields.lookup k).isSome

/-- Go `(*fastjson.Value).Get(k)` for an object field list, with the null value
standing in for the nil pointer (only reached when the key is absent). -/
def jget (fields : List (String × JVal)) (k : String) : JVal :=
  (fields.lookup k).getD .nul

/-- Go `parseRangeValue` (src/request/request.go:298-341). A nil value yields
the zero range with no error; a number yields the degenerate range; an
object uses whichever of `min`/`max` is present (one bound present gives
the degenerate range at that bound; neither bound present is an error);
every other JSON type is a type-mismatch error. -/
def parseRangeValue : Option JVal → RangeValue × Option String
  | none => (⟨0, 0⟩, none)
  | some (.num v) => (⟨v, v⟩, none)
  | some (.obj fields) =>
    if !jexists fields "min" && !jexists fields "max" then
      (⟨0, 0⟩, some "min and max values are missing")
    else if jexists fields "min" && !jexists fields "max" then
      match jfloat64 (jget fields "min") with
      | .error e => (⟨0, 0⟩, some ("failed to parse min value: " ++ e))
      | .ok minVal => (⟨minVal, minVal⟩, none)
    else if !jexists fields "min" && jexists fields "max" then
      match jfloat64 (jget fields "max") with
      | .error e => (⟨0, 0⟩, some ("failed to parse max value: " ++ e))
      | .ok maxVal => (⟨maxVal, maxVal⟩, none)
    else
      match jfloat64 (jget fields "min") with
      | .error e => (⟨0, 0⟩, some ("failed to parse min value: " ++ e))
      | .ok minVal =>
        match jfloat64 (jget fields "max") with
        | .error e => (⟨0, 0⟩, some ("failed to parse max value: " ++ e))
        | .ok maxVal => (⟨minVal, maxVal⟩, none)
  | some v => (⟨0, 0⟩, some ("unexpected type: " ++ typeName v))

end aimodel

namespace impact

open common

/-- Go `impact.ADPe` (src/impact/adpe.go): Abiotic Depletion Potential state. -/
structure ADPe where
  EmbodiedImpact : RangeValue
  RequestImpact : RangeValue
  ServerGpuEmbodiedImpact : ℚ
  TotalImpact : RangeValue
deriving DecidableEq, Repr

/-- Go `impact.GWP` (src/impact/gwp.go): Global Warming Potential state. -/
structure GWP where
  EmbodiedImpact : RangeValue
  RequestImpact : RangeValue
  ServerGpuEmbodiedImpact : ℚ
  TotalImpact : RangeValue
deriving DecidableEq, Repr

/-- Go `impact.PE` (src/request/request.go, impact package part): Primary
Energy state. -/
structure PE where
  EmbodiedImpact : RangeValue
  RequestImpact : RangeValue
  ServerGpuEmbodiedImpact : ℚ
  TotalImpact : RangeValue
deriving DecidableEq, Repr

/-- Go `requestUsage` (src/ecologits.go impact part): pointwise scaling of the
request energy by an electricity-mix impact factor. -/
def requestUsage (requestEnergy : RangeValue) (electricityMix : ℚ) : RangeValue :=
  ⟨requestEnergy.Min * electricityMix, requestEnergy.Max * electricityMix⟩

/-- Go `requestEmbodied` (src/ecologits.go impact part): the shared embodied
footprint amortized over the request share of the hardware lifespan. -/
def requestEmbodied (serverGpuEmbodiedImpact : ℚ) (hardwareLifespan : ℚ)
    (generationLatency : RangeValue) : RangeValue :=
  ⟨(generationLatency.Min / hardwareLifespan) * serverGpuEmbodiedImpact,
   (generationLatency.Max / hardwareLifespan) * serverGpuEmbodiedImpact⟩

/-- Go `serverGpuEmbodied` (src/ecologits.go impact part): server share plus
dedicated GPUs manufacturing footprint. -/
def serverGpuEmbodied (serverEmbodiedImpact : ℚ) (gpuCount : ℚ)
    (gpuEmbodiedImpact : ℚ) (gpuRequiredCount : ℤ) : ℚ :=
  ((gpuRequiredCount : ℚ) / gpuCount) * serverEmbodiedImpact +
    (gpuRequiredCount : ℚ) * gpuEmbodiedImpact

/-- Go `totalImpact` (src/ecologits.go impact part): pointwise sum of usage and
embodied impacts. -/
def totalImpact (requestImpact embodiedImpact : RangeValue) : RangeValue :=
  ⟨requestImpact.Min + embodiedImpact.Min, requestImpact.Max + embodiedImpact.Max⟩

/-- Go `(*ADPe).CalculateRequestUsage` as a pure state update. -/
def ADPe.CalculateRequestUsage (a : ADPe) (requestEnergyKWH : RangeValue)
    (elecImpactFactor : ℚ) : ADPe :=
  { a with RequestImpact := requestUsage requestEnergyKWH elecImpactFactor }

/-- Go `(*ADPe).CalculateServerGpuEmbodied` as a pure state update. -/
def ADPe.CalculateServerGpuEmbodied (a : ADPe) (srv : server.ServerInfra)
    (gpuRequiredCount : ℤ) : ADPe :=
  { a with ServerGpuEmbodiedImpact :=
      (serverGpuEmbodied srv.EmbodiedImpactADPe (srv.AvailableGpuCount : ℚ)
        srv.Gpu.EmbodiedImpactADPe gpuRequiredCount) }

/-- Go `(*ADPe).CalculateRequestEmbodied` as a pure state update. -/
def ADPe.CalculateRequestEmbodied (a : ADPe) (serverLifespanSecs : ℚ)
    (tokenGenLatSecs : RangeValue) : ADPe :=
  { a with EmbodiedImpact :=
      requestEmbodied a.ServerGpuEmbodiedImpact serverLifespanSecs tokenGenLatSecs }

/-- Go `(*ADPe).CalculateTotal` as a pure state update. -/
def ADPe.CalculateTotal (a : ADPe) : ADPe :=
  { a with TotalImpact := totalImpact a.RequestImpact a.EmbodiedImpact }

/-- Go `(*GWP).CalculateRequestUsage` as a pure state update. -/
def GWP.CalculateRequestUsage (g : GWP) (requestEnergyKWH : RangeValue)
    (elecImpactFactor : ℚ) : GWP :=
  { g with RequestImpact := requestUsage requestEnergyKWH elecImpactFactor }

/-- Go `(*GWP).CalculateServerGpuEmbodied` as a pure state update. -/
def GWP.CalculateServerGpuEmbodied (g : GWP) (srv : server.ServerInfra)
    (gpuRequiredCount : ℤ) : GWP :=
  { g with ServerGpuEmbodiedImpact :=
      (serverGpuEmbodied srv.EmbodiedImpactGWP (srv.AvailableGpuCount : ℚ)
        srv.Gpu.EmbodiedImpactGWP gpuRequiredCount) }

/-- Go `(*GWP).CalculateRequestEmbodied` as a pure state update. -/
def GWP.CalculateRequestEmbodied (g : GWP) (serverLifespanSecs : ℚ)
    (tokenGenLatSecs : RangeValue) : GWP :=
  { g with EmbodiedImpact :=
      requestEmbodied g.ServerGpuEmbodiedImpact serverLifespanSecs tokenGenLatSecs }

/-- Go `(*GWP).CalculateTotal` as a pure state update. -/
def GWP.CalculateTotal (g : GWP) : GWP :=
  { g with TotalImpact := totalImpact g.RequestImpact g.EmbodiedImpact }

/-- Go `(*PE).CalculateRequestUsage` as a pure state update. -/
def PE.CalculateRequestUsage (p : PE) (requestEnergyKWH : RangeValue)
    (elecImpactFactor : ℚ) : PE :=
  { p with RequestImpact := requestUsage requestEnergyKWH elecImpactFactor }

/-- Go `(*PE).CalculateServerGpuEmbodied` as a pure state update. -/
def PE.CalculateServerGpuEmbodied (p : PE) (srv : server.ServerInfra)
    (gpuRequiredCount : ℤ) : PE :=
  { p with ServerGpuEmbodiedImpact :=
      (serverGpuEmbodied srv.EmbodiedImpactPE (srv.AvailableGpuCount : ℚ)
        srv.Gpu.EmbodiedImpactPE gpuRequiredCount) }

/-- Go `(*PE).CalculateRequestEmbodied` as a pure state update. -/
def PE.CalculateRequestEmbodied (p : PE) (serverLifespanSecs : ℚ)
    (tokenGenLatSecs : RangeValue) : PE :=
  { p with EmbodiedImpact :=
      requestEmbodied p.ServerGpuEmbodiedImpact serverLifespanSecs tokenGenLatSecs }

/-- Go `(*PE).CalculateTotal` as a pure state update. -/
def PE.CalculateTotal (p : PE) : PE :=
  { p with TotalImpact := totalImpact p.RequestImpact p.EmbodiedImpact }

/-- Go `impact.Impacts` (src/ecologits.go impact part): the multi-metric output. -/
structure Impacts where
  Energy : RangeValue
  ADPe : ADPe
  GWP : GWP
  PE : PE
deriving DecidableEq, Repr

/-- The zero value `Impacts{}` returned by Go alongside every error. -/
def emptyImpacts : Impacts :=
  { Energy := ⟨0, 0⟩,
    ADPe := ⟨⟨0, 0⟩, ⟨0, 0⟩, 0, ⟨0, 0⟩⟩,
    GWP := ⟨⟨0, 0⟩, ⟨0, 0⟩, 0, ⟨0, 0⟩⟩,
    PE := ⟨⟨0, 0⟩, ⟨0, 0⟩, 0, ⟨0, 0⟩⟩ }

/-- Go `impact.ComputeImpacts` (src/ecologits.go:82-136): the strictly
sequential pipeline. Each stage is the corresponding `ServerInfra` method
(the cited `gpuserver.GPUServer` methods are structurally identical to the
`server.ServerInfra` ones embedded above); the first stage error aborts
with the zero `Impacts{}` and a wrapped error message, exactly as the
early returns of the source do. -/
def ComputeImpacts (aiModel : aimodel.AIModel) (srv : server.ServerInfra)
    (req : request.Request) : Impacts × Option String :=
  let modelRequiredMemory := aimodel.ModelRequiredMemory aiModel
  let electricityMix := request.GetElectricityMix req
  let gpuRequiredCountResult := server.GpuRequiredCount srv modelRequiredMemory
  match gpuRequiredCountResult.2 with
  | some e => (emptyImpacts, some ("failed to get GPU required count: " ++ e))
  | none =>
    let gpuRequiredCount := gpuRequiredCountResult.1
    let paramsActiveMax := aiModel.architecture.Parameters.Active.Max
    let generationLatencyResult :=
      server.GenerationLatency srv paramsActiveMax req.OutputTokenCount req.Latency
    match generationLatencyResult.2 with
    | some e => (emptyImpacts, some ("failed to get generation latency: " ++ e))
    | none =>
      let generationLatency := generationLatencyResult.1
      let gpuEnergyResult := server.GpuEnergy srv paramsActiveMax req.OutputTokenCount
      match gpuEnergyResult.2 with
      | some e => (emptyImpacts, some ("failed to get GPU energy: " ++ e))
      | none =>
        let gpuEnergyKWH := gpuEnergyResult.1
        let serverEnergyResult :=
          server.ServerEnergyBaseline srv generationLatency.Max gpuRequiredCount
        match serverEnergyResult.2 with
        | some e => (emptyImpacts, some ("failed to get server energy: " ++ e))
        | none =>
          let serverEnergyKWH := serverEnergyResult.1
          let requestEnergyResult :=
            server.RequestEnergy srv serverEnergyKWH gpuRequiredCount gpuEnergyKWH
          match requestEnergyResult.2 with
          | some e => (emptyImpacts, some ("failed to get request energy: " ++ e))
          | none =>
            let requestEnergy := requestEnergyResult.1
            let adpeImpact : ADPe := ⟨⟨0, 0⟩, ⟨0, 0⟩, 0, ⟨0, 0⟩⟩
            let adpeImpact := adpeImpact.CalculateRequestUsage requestEnergy electricityMix.ADPe
            let adpeImpact := adpeImpact.CalculateServerGpuEmbodied srv gpuRequiredCount
            let adpeImpact :=
              adpeImpact.CalculateRequestEmbodied (srv.HardwareLifespan : ℚ) generationLatency
            let adpeImpact := adpeImpact.CalculateTotal
            let gwpImpact : GWP := ⟨⟨0, 0⟩, ⟨0, 0⟩, 0, ⟨0, 0⟩⟩
            let gwpImpact := gwpImpact.CalculateRequestUsage requestEnergy electricityMix.GWP
            let gwpImpact := gwpImpact.CalculateServerGpuEmbodied srv gpuRequiredCount
            let gwpImpact :=
              gwpImpact.CalculateRequestEmbodied (srv.HardwareLifespan : ℚ) generationLatency
            let gwpImpact := gwpImpact.CalculateTotal
            let peImpact : PE := ⟨⟨0, 0⟩, ⟨0, 0⟩, 0, ⟨0, 0⟩⟩
            let peImpact := peImpact.CalculateRequestUsage requestEnergy electricityMix.PE
            let peImpact := peImpact.CalculateServerGpuEmbodied srv gpuRequiredCount
            let peImpact :=
              peImpact.CalculateRequestEmbodied (srv.HardwareLifespan : ℚ) generationLatency
            let peImpact := peImpact.CalculateTotal
            ({ Energy := requestEnergy, ADPe := adpeImpact, GWP := gwpImpact, PE := peImpact },
              none)

end impact

section Fixtures

/-- Go `server.GenericGPU` (src/server/server.go:65-91): the default GPU. -/
def GenericGPU : server.GPU :=
  { EnergyAlpha := 8.91e-8, EnergyBeta := 1.43e-6, EnergyStdev := 5.19e-7,
    LatencyAlpha := 8.02e-4, LatencyBeta := 2.23e-2, LatencyStdev := 7.00e-6,
    AvailMemoryGB := 80,
    EmbodiedImpactADPe := 5.1e-3, EmbodiedImpactGWP := 143, EmbodiedImpactPE := 1828 }

/-- Go `server.GenericServerInfra` (src/server/server.go:41-62): the default
server (the source wraps it in an always-nil error). -/
def GenericServerInfra : server.ServerInfra :=
  { AvailableGpuCount := 8, PowerConsumptionKW := 1,
    EmbodiedImpactADPe := 0.24, EmbodiedImpactGWP := 3000, EmbodiedImpactPE := 38000,
    HardwareLifespan := 5 * 365 * 24 * 60 * 60,
    Gpu := GenericGPU, DatacenterPue := 1.2 }

/-- A default server whose GPU exposes 30 GB, for the ceiling-rounding
example of the spec. -/
def thirtyGBServer : server.ServerInfra :=
  { GenericServerInfra with Gpu := { GenericGPU with AvailMemoryGB := 30 } }

/-- A server passing every field positivity check except that it has no
GPUs installed. -/
def noGpuServer : server.ServerInfra :=
  { GenericServerInfra with AvailableGpuCount := 0 }

/-- The default server with the accelerator count and power of the unit
tests of `GenerationLatency`. -/
def testLatencyServer : server.ServerInfra :=
  { GenericServerInfra with AvailableGpuCount := 4, PowerConsumptionKW := 1.5 }

/-- The default server with a physically meaningless negative datacenter
PUE, which no stage validates. -/
def negativePueServer : server.ServerInfra :=
  { GenericServerInfra with DatacenterPue := -1 }

/-- A one-model catalog whose model leaves `quantizationBits` unset. -/
def sampleModel : aimodel.AIModel :=
  { name := "gpt-4", provider := "openai",
    architecture :=
      { type0 := "moe",
        Parameters := { Active := ⟨39.1, 39.1⟩, Total := ⟨140.6, 140.6⟩ } },
    warnings := [], sources := [], quantizationBits := 0 }

/-- The catalog holding just `sampleModel`. -/
def sampleCatalog : aimodel.ModelData := { Aliases := [], Models := [sampleModel] }

/-- A transient request: 100 output tokens, 5 s measured latency, USA. -/
def sampleRequest : request.Request := { OutputTokenCount := 100, Latency := 5, Geo := "USA" }

end Fixtures

section Helpers

/-- On validated inputs `GpuRequiredCount` returns the ceiling quotient. -/
lemma gpuRequiredCount_ok (s : server.ServerInfra) (m : ℚ)
    (hm : 0 < m) (hg : 0 < s.Gpu.AvailMemoryGB) :
    server.GpuRequiredCount s m = (⌈m / s.Gpu.AvailMemoryGB⌉, none) := by
  unfold server.GpuRequiredCount
  rw [if_neg (not_le.mpr hm), if_neg (not_le.mpr hg)]

/-- On validated inputs `GpuEnergy` returns the clipped confidence interval. -/
lemma gpuEnergy_ok (s : server.ServerInfra) (a n : ℚ)
    (ha : 0 < a) (hn : 0 < n)
    (hα : 0 < s.Gpu.EnergyAlpha) (hβ : 0 < s.Gpu.EnergyBeta) (hσ : 0 < s.Gpu.EnergyStdev) :
    server.GpuEnergy s a n =
      (⟨max 0 (n * (s.Gpu.EnergyAlpha * a + s.Gpu.EnergyBeta - 1.96 * s.Gpu.EnergyStdev)),
        n * (s.Gpu.EnergyAlpha * a + s.Gpu.EnergyBeta + 1.96 * s.Gpu.EnergyStdev)⟩, none) := by
  unfold server.GpuEnergy
  have hparams : ¬(s.Gpu.EnergyAlpha ≤ 0 ∨ s.Gpu.EnergyBeta ≤ 0 ∨ s.Gpu.EnergyStdev ≤ 0) := by
    push_neg
    exact ⟨hα, hβ, hσ⟩
  rw [if_neg (not_le.mpr ha), if_neg (not_le.mpr hn), if_neg hparams]

/-- On validated inputs `GenerationLatency` returns the clipped confidence
interval when its upper bound is strictly below the measured latency, and
the degenerate measured-latency interval otherwise. -/
lemma generationLatency_ok (s : server.ServerInfra) (a n lat : ℚ)
    (ha : 0 < a) (hn : 0 < n) (hlat : 0 < lat)
    (hα : 0 < s.Gpu.LatencyAlpha) (hβ : 0 < s.Gpu.LatencyBeta) (hσ : 0 < s.Gpu.LatencyStdev)
    (hcnt : 0 < s.AvailableGpuCount) (hpow : 0 < s.PowerConsumptionKW) :
    server.GenerationLatency s a n lat =
      (if n * (s.Gpu.LatencyAlpha * a + s.Gpu.LatencyBeta + 1.96 * s.Gpu.LatencyStdev) < lat
       then ⟨max 0 (n * (s.Gpu.LatencyAlpha * a + s.Gpu.LatencyBeta - 1.96 * s.Gpu.LatencyStdev)),
             n * (s.Gpu.LatencyAlpha * a + s.Gpu.LatencyBeta + 1.96 * s.Gpu.LatencyStdev)⟩
       else ⟨lat, lat⟩, none) := by
  unfold server.GenerationLatency
  have hparams : ¬(s.Gpu.LatencyAlpha ≤ 0 ∨ s.Gpu.LatencyBeta ≤ 0 ∨ s.Gpu.LatencyStdev ≤ 0) := by
    push_neg
    exact ⟨hα, hβ, hσ⟩
  rw [if_neg (not_le.mpr ha), if_neg (not_le.mpr hn), if_neg (not_le.mpr hlat),
    if_neg hparams, if_neg (not_le.mpr hcnt), if_neg (not_le.mpr hpow)]
  show (if n * (s.Gpu.LatencyAlpha * a + s.Gpu.LatencyBeta + 1.96 * s.Gpu.LatencyStdev) < lat
        then ((⟨max 0 (n * (s.Gpu.LatencyAlpha * a + s.Gpu.LatencyBeta -
                1.96 * s.Gpu.LatencyStdev)),
              n * (s.Gpu.LatencyAlpha * a + s.Gpu.LatencyBeta +
                1.96 * s.Gpu.LatencyStdev)⟩ : common.RangeValue), (none : Option String))
        else (⟨lat, lat⟩, none)) = _
  split_ifs <;> rfl

/-- On validated inputs `RequestEnergy` applies the PUE-scaled sum to each
bound of the GPU-energy range. -/
lemma requestEnergy_ok (s : server.ServerInfra) (se : ℚ) (g : ℤ) (e : common.RangeValue)
    (hse : 0 < se) (hg : 0 < g) (hga : g ≤ s.AvailableGpuCount)
    (hmin : 0 ≤ e.Min) (hmax : 0 ≤ e.Max) :
    server.RequestEnergy s se g e =
      (⟨s.DatacenterPue * (se + (g : ℚ) * e.Min),
        s.DatacenterPue * (se + (g : ℚ) * e.Max)⟩, none) := by
  unfold server.RequestEnergy
  have hcnt : ¬(g ≤ 0 ∨ s.AvailableGpuCount < g) := by
    push_neg
    exact ⟨hg, hga⟩
  have hrange : ¬(e.Min < 0 ∨ e.Max < 0) := by
    push_neg
    exact ⟨hmin, hmax⟩
  rw [if_neg (not_le.mpr hse), if_neg hcnt, if_neg hrange]

end Helpers

/-- C6: for positive `modelRequiredMemory` and positive GPU memory,
`GpuRequiredCount` returns `ceil(modelRequiredMemory / availableMemoryGB)`
with no error, and it fails exactly when either operand is non-positive. -/
theorem gpuRequiredCount_spec (s : server.ServerInfra) (m : ℚ) :
    (0 < m → 0 < s.Gpu.AvailMemoryGB →
      server.GpuRequiredCount s m = (⌈m / s.Gpu.AvailMemoryGB⌉, none)) ∧
    ((server.GpuRequiredCount s m).2.isSome ↔ m ≤ 0 ∨ s.Gpu.AvailMemoryGB ≤ 0) := by
  constructor
  · intro hm hg
    exact gpuRequiredCount_ok s m hm hg
  · unfold server.GpuRequiredCount
    by_cases hm : m ≤ 0
    · simp [hm]
    · by_cases hg : s.Gpu.AvailMemoryGB ≤ 0 <;> simp [hm, hg]

/-- Witness for C6: with 80 GB per GPU a model needing 80 GB takes one GPU;
with 30 GB per GPU it takes three. -/
theorem gpuRequiredCount_spec_witness :
    server.GpuRequiredCount GenericServerInfra 80 = (1, none) ∧
    server.GpuRequiredCount thirtyGBServer 80 = (3, none) := by
  have h1 := (gpuRequiredCount_spec GenericServerInfra 80).1 (by norm_num)
    (by norm_num [GenericServerInfra, GenericGPU])
  have h2 := (gpuRequiredCount_spec thirtyGBServer 80).1 (by norm_num)
    (by norm_num [thirtyGBServer, GenericGPU])
  rw [h1, h2]
  constructor <;> norm_num [GenericServerInfra, thirtyGBServer, GenericGPU, Int.ceil_eq_iff]

/-- C1 counterexample: a server with every latency regression parameter
positive but zero installed GPUs. All the quantities the claim requires to
be positive are positive, yet `GenerationLatency` returns an error and the
zero range instead of the computed confidence interval. -/
theorem generationLatency_claim_counterexample :
    0 < (1 : ℚ) ∧ 0 < (1 : ℚ) ∧ 0 < (100 : ℚ) ∧
    0 < noGpuServer.Gpu.LatencyAlpha ∧ 0 < noGpuServer.Gpu.LatencyBeta ∧
    0 < noGpuServer.Gpu.LatencyStdev ∧
    server.GenerationLatency noGpuServer 1 1 100 =
      (⟨0, 0⟩, some "AvailableGpuCount must be greater than 0") := by
  norm_num [server.GenerationLatency, noGpuServer, GenericServerInfra, GenericGPU]

/-- C1 (amended): with the two further validated preconditions
`AvailableGpuCount > 0` and `PowerConsumptionKW > 0`, `GenerationLatency`
returns the computed confidence interval unchanged exactly when its upper
bound is strictly below the measured latency, and the degenerate interval
`[measuredLatency, measuredLatency]` otherwise (equality included). -/
theorem generationLatency_spec (s : server.ServerInfra) (a n lat : ℚ)
    (ha : 0 < a) (hn : 0 < n) (hlat : 0 < lat)
    (hα : 0 < s.Gpu.LatencyAlpha) (hβ : 0 < s.Gpu.LatencyBeta) (hσ : 0 < s.Gpu.LatencyStdev)
    (hcnt : 0 < s.AvailableGpuCount) (hpow : 0 < s.PowerConsumptionKW) :
    server.GenerationLatency s a n lat =
      (if n * (s.Gpu.LatencyAlpha * a + s.Gpu.LatencyBeta + 1.96 * s.Gpu.LatencyStdev) < lat
       then ⟨max 0 (n * (s.Gpu.LatencyAlpha * a + s.Gpu.LatencyBeta - 1.96 * s.Gpu.LatencyStdev)),
             n * (s.Gpu.LatencyAlpha * a + s.Gpu.LatencyBeta + 1.96 * s.Gpu.LatencyStdev)⟩
       else ⟨lat, lat⟩, none) :=
  generationLatency_ok s a n lat ha hn hlat hα hβ hσ hcnt hpow

/-- Witness for C1: the regression example of the spec. With the default
latency regression, 10 B active parameters, 100 tokens and a measured
latency of 5 s the estimate `[3.030628, 3.033372]` is returned unchanged;
with a measured latency of 1 s it collapses to `[1, 1]`. -/
theorem generationLatency_spec_witness :
    server.GenerationLatency testLatencyServer 10 100 5 = (⟨3.030628, 3.033372⟩, none) ∧
    server.GenerationLatency testLatencyServer 10 100 1 = (⟨1, 1⟩, none) := by
  have hfix : 0 < testLatencyServer.Gpu.LatencyAlpha ∧ 0 < testLatencyServer.Gpu.LatencyBeta ∧
      0 < testLatencyServer.Gpu.LatencyStdev ∧ 0 < testLatencyServer.AvailableGpuCount ∧
      0 < testLatencyServer.PowerConsumptionKW := by
    norm_num [testLatencyServer, GenericServerInfra, GenericGPU]
  have h5 := generationLatency_spec testLatencyServer 10 100 5 (by norm_num) (by norm_num)
    (by norm_num) hfix.1 hfix.2.1 hfix.2.2.1 hfix.2.2.2.1 hfix.2.2.2.2
  have h1 := generationLatency_spec testLatencyServer 10 100 1 (by norm_num) (by norm_num)
    (by norm_num) hfix.1 hfix.2.1 hfix.2.2.1 hfix.2.2.2.1 hfix.2.2.2.2
  rw [h5, h1]
  constructor <;> norm_num [testLatencyServer, GenericServerInfra, GenericGPU]

/-- C5 counterexample: `RequestEnergy` validates only the signs of the GPU
energy bounds, not their order, so a successful call can return an
inverted interval: with the default server (PUE 1.2), server energy 1,
one GPU and the inverted input range `[2,1]` it succeeds with output
`[3.6, 2.4]`, whose Min exceeds its Max. -/
theorem stage_intervals_claim_counterexample :
    (server.RequestEnergy GenericServerInfra 1 1 ⟨2, 1⟩).2 = none ∧
    (server.RequestEnergy GenericServerInfra 1 1 ⟨2, 1⟩).1.Max <
      (server.RequestEnergy GenericServerInfra 1 1 ⟨2, 1⟩).1.Min := by
  norm_num [server.RequestEnergy, GenericServerInfra, GenericGPU]

/-- C5 (amended): under their validated preconditions, `GpuEnergy` and
`GenerationLatency` succeed with an ordered, non-negative interval; and
`RequestEnergy` does so under its validated preconditions together with
the two conditions it does not validate, `DatacenterPue >= 0` and an
ordered input energy range. -/
theorem stage_intervals_spec :
    (∀ (s : server.ServerInfra) (a n : ℚ),
      0 < a → 0 < n →
      0 < s.Gpu.EnergyAlpha → 0 < s.Gpu.EnergyBeta → 0 < s.Gpu.EnergyStdev →
      (server.GpuEnergy s a n).2 = none ∧
      0 ≤ (server.GpuEnergy s a n).1.Min ∧
      (server.GpuEnergy s a n).1.Min ≤ (server.GpuEnergy s a n).1.Max) ∧
    (∀ (s : server.ServerInfra) (a n lat : ℚ),
      0 < a → 0 < n → 0 < lat →
      0 < s.Gpu.LatencyAlpha → 0 < s.Gpu.LatencyBeta → 0 < s.Gpu.LatencyStdev →
      0 < s.AvailableGpuCount → 0 < s.PowerConsumptionKW →
      (server.GenerationLatency s a n lat).2 = none ∧
      0 ≤ (server.GenerationLatency s a n lat).1.Min ∧
      (server.GenerationLatency s a n lat).1.Min ≤ (server.GenerationLatency s a n lat).1.Max) ∧
    (∀ (s : server.ServerInfra) (se : ℚ) (g : ℤ) (e : common.RangeValue),
      0 < se → 0 < g → g ≤ s.AvailableGpuCount → 0 ≤ e.Min → 0 ≤ e.Max →
      0 ≤ s.DatacenterPue → e.Min ≤ e.Max →
      (server.RequestEnergy s se g e).2 = none ∧
      0 ≤ (server.RequestEnergy s se g e).1.Min ∧
      (server.RequestEnergy s se g e).1.Min ≤ (server.RequestEnergy s se g e).1.Max) := by
  refine ⟨?_, ?_, ?_⟩
  · intro s a n ha hn hα hβ hσ
    rw [gpuEnergy_ok s a n ha hn hα hβ hσ]
    refine ⟨rfl, le_max_left 0 _, max_le ?_ ?_⟩
    · nlinarith [mul_pos hα ha, mul_pos hn hβ, mul_pos hn hσ]
    · nlinarith [mul_pos hn hσ]
  · intro s a n lat ha hn hlat hα hβ hσ hcnt hpow
    rw [generationLatency_ok s a n lat ha hn hlat hα hβ hσ hcnt hpow]
    split_ifs
    · refine ⟨rfl, le_max_left 0 _, max_le ?_ ?_⟩
      · nlinarith [mul_pos hα ha, mul_pos hn hβ, mul_pos hn hσ]
      · nlinarith [mul_pos hn hσ]
    · exact ⟨rfl, le_of_lt hlat, le_refl lat⟩
  · intro s se g e hse hg hga hmin hmax hpue hord
    rw [requestEnergy_ok s se g e hse hg hga hmin hmax]
    have hgq : (0 : ℚ) ≤ (g : ℚ) := by exact_mod_cast hg.le
    refine ⟨rfl, ?_, ?_⟩
    · have : (0 : ℚ) ≤ se + (g : ℚ) * e.Min := by positivity
      exact mul_nonneg hpue this
    · apply mul_le_mul_of_nonneg_left _ hpue
      exact add_le_add_left (mul_le_mul_of_nonneg_left hord hgq) se

/-- Witness for C5: each of the three amended statements instantiated on
the default server with concrete validated inputs. -/
theorem stage_intervals_spec_witness :
    ((server.GpuEnergy GenericServerInfra 10 100).2 = none ∧
      0 ≤ (server.GpuEnergy GenericServerInfra 10 100).1.Min ∧
      (server.GpuEnergy GenericServerInfra 10 100).1.Min ≤
        (server.GpuEnergy GenericServerInfra 10 100).1.Max) ∧
    ((server.GenerationLatency GenericServerInfra 10 100 5).2 = none ∧
      0 ≤ (server.GenerationLatency GenericServerInfra 10 100 5).1.Min ∧
      (server.GenerationLatency GenericServerInfra 10 100 5).1.Min ≤
        (server.GenerationLatency GenericServerInfra 10 100 5).1.Max) ∧
    ((server.RequestEnergy GenericServerInfra 1 1 ⟨1, 2⟩).2 = none ∧
      0 ≤ (server.RequestEnergy GenericServerInfra 1 1 ⟨1, 2⟩).1.Min ∧
      (server.RequestEnergy GenericServerInfra 1 1 ⟨1, 2⟩).1.Min ≤
        (server.RequestEnergy GenericServerInfra 1 1 ⟨1, 2⟩).1.Max) := by
  have hgpu : 0 < GenericServerInfra.Gpu.EnergyAlpha ∧ 0 < GenericServerInfra.Gpu.EnergyBeta ∧
      0 < GenericServerInfra.Gpu.EnergyStdev ∧ 0 < GenericServerInfra.Gpu.LatencyAlpha ∧
      0 < GenericServerInfra.Gpu.LatencyBeta ∧ 0 < GenericServerInfra.Gpu.LatencyStdev ∧
      0 < GenericServerInfra.AvailableGpuCount ∧ 0 < GenericServerInfra.PowerConsumptionKW ∧
      (1 : ℤ) ≤ GenericServerInfra.AvailableGpuCount ∧ 0 ≤ GenericServerInfra.DatacenterPue := by
    norm_num [GenericServerInfra, GenericGPU]
  obtain ⟨h1, h2, h3, h4, h5, h6, h7, h8, h9, h10⟩ := hgpu
  exact ⟨stage_intervals_spec.1 GenericServerInfra 10 100 (by norm_num) (by norm_num) h1 h2 h3,
    stage_intervals_spec.2.1 GenericServerInfra 10 100 5 (by norm_num) (by norm_num)
      (by norm_num) h4 h5 h6 h7 h8,
    stage_intervals_spec.2.2 GenericServerInfra 1 1 ⟨1, 2⟩ (by norm_num) (by norm_num) h9
      (by norm_num) (by norm_num) h10 (by norm_num)⟩

/-- C7: on inputs accepted by its validation, `RequestEnergy` computes
`PUE * (serverEnergy + gpuRequiredCount * bound)` on each bound
independently; each output bound is an affine function of the
corresponding input bound and of the accelerator count with coefficients
independent of them, and replacing the datacenter PUE by `k` times itself
multiplies both output bounds by `k`. -/
theorem requestEnergy_algebra (s : server.ServerInfra) (se : ℚ) (g : ℤ)
    (e : common.RangeValue) (k : ℚ)
    (hse : 0 < se) (hg : 0 < g) (hga : g ≤ s.AvailableGpuCount)
    (hmin : 0 ≤ e.Min) (hmax : 0 ≤ e.Max) :
    server.RequestEnergy s se g e =
      (⟨s.DatacenterPue * (se + (g : ℚ) * e.Min),
        s.DatacenterPue * (se + (g : ℚ) * e.Max)⟩, none) ∧
    (server.RequestEnergy { s with DatacenterPue := k * s.DatacenterPue } se g e).1.Min =
      k * (server.RequestEnergy s se g e).1.Min ∧
    (server.RequestEnergy { s with DatacenterPue := k * s.DatacenterPue } se g e).1.Max =
      k * (server.RequestEnergy s se g e).1.Max ∧
    (∀ b : ℚ, 0 ≤ b → (server.RequestEnergy s se g ⟨e.Min, b⟩).1.Max =
      s.DatacenterPue * se + (s.DatacenterPue * (g : ℚ)) * b) ∧
    (∀ gr : ℤ, 0 < gr → gr ≤ s.AvailableGpuCount →
      (server.RequestEnergy s se gr e).1.Min =
        s.DatacenterPue * se + (s.DatacenterPue * e.Min) * (gr : ℚ)) := by
  have hbase := requestEnergy_ok s se g e hse hg hga hmin hmax
  have hscaled := requestEnergy_ok { s with DatacenterPue := k * s.DatacenterPue } se g e
    hse hg hga hmin hmax
  refine ⟨hbase, ?_, ?_, ?_, ?_⟩
  · rw [hbase, hscaled]
    ring
  · rw [hbase, hscaled]
    ring
  · intro b hb
    rw [requestEnergy_ok s se g ⟨e.Min, b⟩ hse hg hga hmin hb]
    ring
  · intro gr hgr hgra
    rw [requestEnergy_ok s se gr e hse hgr hgra hmin hmax]
    ring

/-- Witness for C7: the formula, the PUE scaling and both affine forms on
the default server with server energy 1, two GPUs and GPU-energy range
`[1, 2]`, with scale factor 3. -/
theorem requestEnergy_algebra_witness :
    server.RequestEnergy GenericServerInfra 1 2 ⟨1, 2⟩ =
      (⟨GenericServerInfra.DatacenterPue * (1 + (2 : ℤ) * (1 : ℚ)),
        GenericServerInfra.DatacenterPue * (1 + (2 : ℤ) * (2 : ℚ))⟩, none) ∧
    (server.RequestEnergy { GenericServerInfra with
        DatacenterPue := 3 * GenericServerInfra.DatacenterPue } 1 2 ⟨1, 2⟩).1.Min =
      3 * (server.RequestEnergy GenericServerInfra 1 2 ⟨1, 2⟩).1.Min ∧
    (server.RequestEnergy { GenericServerInfra with
        DatacenterPue := 3 * GenericServerInfra.DatacenterPue } 1 2 ⟨1, 2⟩).1.Max =
      3 * (server.RequestEnergy GenericServerInfra 1 2 ⟨1, 2⟩).1.Max ∧
    (∀ b : ℚ, 0 ≤ b → (server.RequestEnergy GenericServerInfra 1 2 ⟨1, b⟩).1.Max =
      GenericServerInfra.DatacenterPue * 1 +
        (GenericServerInfra.DatacenterPue * ((2 : ℤ) : ℚ)) * b) ∧
    (∀ gr : ℤ, 0 < gr → gr ≤ GenericServerInfra.AvailableGpuCount →
      (server.RequestEnergy GenericServerInfra 1 gr ⟨1, 2⟩).1.Min =
        GenericServerInfra.DatacenterPue * 1 + (GenericServerInfra.DatacenterPue * 1) * (gr : ℚ)) := by
  have h := requestEnergy_algebra GenericServerInfra 1 2 ⟨1, 2⟩ 3 (by norm_num) (by norm_num)
    (by norm_num [GenericServerInfra]) (by norm_num) (by norm_num)
  exact ⟨h.1, h.2.1, h.2.2.1, h.2.2.2.1, h.2.2.2.2⟩

/-- C8: `RequestEnergy` called with a non-positive server energy, an
accelerator count that is non-positive or exceeds the server capacity, or
a negative bound in the GPU-energy range, fails with an error and returns
the zero range. -/
theorem requestEnergy_rejects (s : server.ServerInfra) (se : ℚ) (g : ℤ)
    (e : common.RangeValue)
    (h : se ≤ 0 ∨ g ≤ 0 ∨ s.AvailableGpuCount < g ∨ e.Min < 0 ∨ e.Max < 0) :
    (server.RequestEnergy s se g e).1 = ⟨0, 0⟩ ∧
    ((server.RequestEnergy s se g e).2).isSome := by
  unfold server.RequestEnergy
  by_cases h1 : se ≤ 0
  · simp [h1]
  · by_cases h2 : g ≤ 0 ∨ s.AvailableGpuCount < g
    · simp [h1, h2]
    · by_cases h3 : e.Min < 0 ∨ e.Max < 0
      · simp [h1, h2, h3]
      · exfalso
        push_neg at h2 h3
        rcases h with h | h | h | h | h
        · exact h1 h
        · exact absurd h (not_le.mpr h2.1)
        · exact absurd h (not_lt.mpr h2.2)
        · exact absurd h (not_lt.mpr h3.1)
        · exact absurd h (not_lt.mpr h3.2)

/-- Witness for C8: asking for 9 GPUs on the default 8-GPU server fails
and yields the zero range. -/
theorem requestEnergy_rejects_witness :
    (server.RequestEnergy GenericServerInfra 1 9 ⟨1, 2⟩).1 = ⟨0, 0⟩ ∧
    ((server.RequestEnergy GenericServerInfra 1 9 ⟨1, 2⟩).2).isSome :=
  requestEnergy_rejects GenericServerInfra 1 9 ⟨1, 2⟩
    (Or.inr (Or.inr (Or.inl (by norm_num [GenericServerInfra]))))

/-- C10: `RequestEnergy` never validates the datacenter PUE: it succeeds
whenever its other checks pass, whatever the PUE; when additionally
`DatacenterPue >= 0` and the input range is ordered, the output is
ordered; and the PUE hypothesis is genuine: with PUE `-1` and the
otherwise valid ordered input `[0,1]` the call succeeds with an inverted
output interval. -/
theorem requestEnergy_pue_spec :
    (∀ (s : server.ServerInfra) (se : ℚ) (g : ℤ) (e : common.RangeValue),
      0 < se → 0 < g → g ≤ s.AvailableGpuCount → 0 ≤ e.Min → 0 ≤ e.Max →
      (server.RequestEnergy s se g e).2 = none) ∧
    (∀ (s : server.ServerInfra) (se : ℚ) (g : ℤ) (e : common.RangeValue),
      0 < se → 0 < g → g ≤ s.AvailableGpuCount → 0 ≤ e.Min → 0 ≤ e.Max →
      0 ≤ s.DatacenterPue → e.Min ≤ e.Max →
      (server.RequestEnergy s se g e).1.Min ≤ (server.RequestEnergy s se g e).1.Max) ∧
    ((server.RequestEnergy negativePueServer 1 1 ⟨0, 1⟩).2 = none ∧
      (server.RequestEnergy negativePueServer 1 1 ⟨0, 1⟩).1.Max <
        (server.RequestEnergy negativePueServer 1 1 ⟨0, 1⟩).1.Min) := by
  refine ⟨?_, ?_, ?_⟩
  · intro s se g e hse hg hga hmin hmax
    rw [requestEnergy_ok s se g e hse hg hga hmin hmax]
  · intro s se g e hse hg hga hmin hmax hpue hord
    rw [requestEnergy_ok s se g e hse hg hga hmin hmax]
    have hgq : (0 : ℚ) ≤ (g : ℚ) := by exact_mod_cast hg.le
    exact mul_le_mul_of_nonneg_left
      (add_le_add_left (mul_le_mul_of_nonneg_left hord hgq) se) hpue
  · constructor <;> norm_num [server.RequestEnergy, negativePueServer, GenericServerInfra]

/-- Witness for C10: the two universally quantified parts instantiated on
the negative-PUE server (success without PUE validation) and the default
server (ordered output under the extra hypotheses). -/
theorem requestEnergy_pue_spec_witness :
    (server.RequestEnergy negativePueServer 1 1 ⟨1, 2⟩).2 = none ∧
    (server.RequestEnergy GenericServerInfra 1 1 ⟨1, 2⟩).1.Min ≤
      (server.RequestEnergy GenericServerInfra 1 1 ⟨1, 2⟩).1.Max := by
  constructor
  · exact requestEnergy_pue_spec.1 negativePueServer 1 1 ⟨1, 2⟩ (by norm_num) (by norm_num)
      (by norm_num [negativePueServer, GenericServerInfra]) (by norm_num) (by norm_num)
  · exact requestEnergy_pue_spec.2.1 GenericServerInfra 1 1 ⟨1, 2⟩ (by norm_num) (by norm_num)
      (by norm_num [GenericServerInfra]) (by norm_num) (by norm_num)
      (by norm_num [GenericServerInfra]) (by norm_num)




/-- Every run of the pipeline either succeeds or returns exactly the zero
`Impacts` alongside its error. -/
lemma computeImpacts_shape (m : aimodel.AIModel) (s : server.ServerInfra)
    (r : request.Request) :
    (impact.ComputeImpacts m s r).2 = none ∨
    (impact.ComputeImpacts m s r).1 = impact.emptyImpacts := by
  rcases h1 : (server.GpuRequiredCount s (aimodel.ModelRequiredMemory m)).2 with _ | e1
  · rcases h2 : (server.GenerationLatency s m.architecture.Parameters.Active.Max
        r.OutputTokenCount r.Latency).2 with _ | e2
    · rcases h3 : (server.GpuEnergy s m.architecture.Parameters.Active.Max
          r.OutputTokenCount).2 with _ | e3
      · rcases h4 : (server.ServerEnergyBaseline s
            (server.GenerationLatency s m.architecture.Parameters.Active.Max
              r.OutputTokenCount r.Latency).1.Max
            (server.GpuRequiredCount s (aimodel.ModelRequiredMemory m)).1).2 with _ | e4
        · rcases h5 : (server.RequestEnergy s
              (server.ServerEnergyBaseline s
                (server.GenerationLatency s m.architecture.Parameters.Active.Max
                  r.OutputTokenCount r.Latency).1.Max
                (server.GpuRequiredCount s (aimodel.ModelRequiredMemory m)).1).1
              (server.GpuRequiredCount s (aimodel.ModelRequiredMemory m)).1
              (server.GpuEnergy s m.architecture.Parameters.Active.Max
                r.OutputTokenCount).1).2 with _ | e5
          · left
            simp [impact.ComputeImpacts, h1, h2, h3, h4, h5]
          · right
            simp [impact.ComputeImpacts, h1, h2, h3, h4, h5]
        · right
          simp [impact.ComputeImpacts, h1, h2, h3, h4]
      · right
        simp [impact.ComputeImpacts, h1, h2, h3]
    · right
      simp [impact.ComputeImpacts, h1, h2]
  · right
    simp [impact.ComputeImpacts, h1]

/-- C2: the pipeline is strictly sequential and aborts on the first failing
stage with the zero-valued `Impacts` and a wrapped error: whenever the
result carries an error the `Impacts` component is the zero value, a
failure of the first stage is returned immediately with its wrapped
message, and a failure of the second stage (after the first succeeds)
likewise. Errors are ordinary return values of the embedding. -/
theorem computeImpacts_pipeline (m : aimodel.AIModel) (s : server.ServerInfra)
    (r : request.Request) :
    (((impact.ComputeImpacts m s r).2).isSome →
      (impact.ComputeImpacts m s r).1 = impact.emptyImpacts) ∧
    (∀ e, (server.GpuRequiredCount s (aimodel.ModelRequiredMemory m)).2 = some e →
      impact.ComputeImpacts m s r =
        (impact.emptyImpacts, some ("failed to get GPU required count: " ++ e))) ∧
    ((server.GpuRequiredCount s (aimodel.ModelRequiredMemory m)).2 = none →
      ∀ e, (server.GenerationLatency s m.architecture.Parameters.Active.Max
              r.OutputTokenCount r.Latency).2 = some e →
      impact.ComputeImpacts m s r =
        (impact.emptyImpacts, some ("failed to get generation latency: " ++ e))) := by
  refine ⟨?_, ?_, ?_⟩
  · intro hsome
    rcases computeImpacts_shape m s r with h | h
    · rw [h] at hsome
      exact absurd hsome (by simp)
    · exact h
  · intro e he
    simp only [impact.ComputeImpacts, he]
  · intro h1 e h2
    simp only [impact.ComputeImpacts, h1, h2]

/-- Witness for C2: on the catalog-free zero model every parameter range is
zero, so the very first stage (required GPU count) rejects the
non-positive required memory and the pipeline returns the zero `Impacts`
with the wrapped first-stage message. -/
theorem computeImpacts_pipeline_witness :
    impact.ComputeImpacts aimodel.emptyAIModel GenericServerInfra sampleRequest =
      (impact.emptyImpacts,
        some ("failed to get GPU required count: " ++
          "model required memory must be greater than 0")) := by
  apply (computeImpacts_pipeline aimodel.emptyAIModel GenericServerInfra sampleRequest).2.1
  norm_num [server.GpuRequiredCount, aimodel.ModelRequiredMemory, aimodel.emptyAIModel]

/-- C3: the catalog range parser normalizes a bare number to the degenerate
range, an object with both bounds to that exact range, an object with
exactly one bound to the degenerate range at that bound, an object with
neither bound to a missing-range-data error, and every other JSON type to
a type-mismatch error. -/
theorem parseRangeValue_spec :
    (∀ v : ℚ, aimodel.parseRangeValue (some (.num v)) = (⟨v, v⟩, none)) ∧
    (∀ (fs : List (String × aimodel.JVal)) (a b : ℚ),
      fs.lookup "min" = some (.num a) → fs.lookup "max" = some (.num b) →
      aimodel.parseRangeValue (some (.obj fs)) = (⟨a, b⟩, none)) ∧
    (∀ (fs : List (String × aimodel.JVal)) (a : ℚ),
      fs.lookup "min" = some (.num a) → fs.lookup "max" = none →
      aimodel.parseRangeValue (some (.obj fs)) = (⟨a, a⟩, none)) ∧
    (∀ (fs : List (String × aimodel.JVal)) (b : ℚ),
      fs.lookup "min" = none → fs.lookup "max" = some (.num b) →
      aimodel.parseRangeValue (some (.obj fs)) = (⟨b, b⟩, none)) ∧
    (∀ fs : List (String × aimodel.JVal),
      fs.lookup "min" = none → fs.lookup "max" = none →
      aimodel.parseRangeValue (some (.obj fs)) =
        (⟨0, 0⟩, some "min and max values are missing")) ∧
    (∀ v : aimodel.JVal, (∀ q : ℚ, v ≠ .num q) → (∀ fs, v ≠ .obj fs) →
      aimodel.parseRangeValue (some v) =
        (⟨0, 0⟩, some ("unexpected type: " ++ aimodel.typeName v))) := by
  refine ⟨fun v => rfl, ?_, ?_, ?_, ?_, ?_⟩
  · intro fs a b hmin hmax
    simp [aimodel.parseRangeValue, aimodel.jexists, aimodel.jget, aimodel.jfloat64, hmin, hmax]
  · intro fs a hmin hmax
    simp [aimodel.parseRangeValue, aimodel.jexists, aimodel.jget, aimodel.jfloat64, hmin, hmax]
  · intro fs b hmin hmax
    simp [aimodel.parseRangeValue, aimodel.jexists, aimodel.jget, aimodel.jfloat64, hmin, hmax]
  · intro fs hmin hmax
    simp [aimodel.parseRangeValue, aimodel.jexists, aimodel.jget, hmin, hmax]
  · intro v hnum hobj
    cases v with
    | num q => exact absurd rfl (hnum q)
    | obj fs => exact absurd rfl (hobj fs)
    | str s => rfl
    | boolTrue => rfl
    | boolFalse => rfl
    | arr elems => rfl
    | nul => rfl

/-- Witness for C3: the parsing examples of the spec, one per case. -/
theorem parseRangeValue_spec_witness :
    aimodel.parseRangeValue (some (.num 15)) = (⟨15, 15⟩, none) ∧
    aimodel.parseRangeValue (some (.obj [("min", .num 10.5), ("max", .num 20.5)])) =
      (⟨10.5, 20.5⟩, none) ∧
    aimodel.parseRangeValue (some (.obj [("min", .num 10.5)])) = (⟨10.5, 10.5⟩, none) ∧
    aimodel.parseRangeValue (some (.obj [("max", .num 20.5)])) = (⟨20.5, 20.5⟩, none) ∧
    aimodel.parseRangeValue (some (.obj [])) = (⟨0, 0⟩, some "min and max values are missing") ∧
    aimodel.parseRangeValue (some (.str "invalid")) =
      (⟨0, 0⟩, some ("unexpected type: " ++ aimodel.typeName (.str "invalid"))) :=
  ⟨parseRangeValue_spec.1 15,
    parseRangeValue_spec.2.1 [("min", .num 10.5), ("max", .num 20.5)] 10.5 20.5 rfl rfl,
    parseRangeValue_spec.2.2.1 [("min", .num 10.5)] 10.5 rfl rfl,
    parseRangeValue_spec.2.2.2.1 [("max", .num 20.5)] 20.5 rfl rfl,
    parseRangeValue_spec.2.2.2.2.1 [] rfl rfl,
    parseRangeValue_spec.2.2.2.2.2 (.str "invalid")
      (fun q h => aimodel.JVal.noConfusion h) (fun fs h => aimodel.JVal.noConfusion h)⟩

/-- C4: whenever the stored catalog entry for the requested name leaves
`quantizationBits` at zero, the loader hands out the model with
`quantizationBits = 8`, and the required-memory computation for that model
uses exactly this 8. -/
theorem quantizationBits_default (name provider : String) (catalog : aimodel.ModelData)
    (hn : ¬(name = "")) (hp : ¬(provider = ""))
    (hq : (aimodel.mapGetD (aimodel.CreateModelsMap catalog).1 name).quantizationBits = 0) :
    ∃ mdl : aimodel.AIModel,
      aimodel.NewAIModel name provider catalog = .ok mdl ∧
      mdl.quantizationBits = 8 ∧
      aimodel.ModelRequiredMemory mdl =
        1.2 * mdl.architecture.Parameters.Total.Max * 8 / 8 := by
  refine ⟨{ aimodel.mapGetD (aimodel.CreateModelsMap catalog).1 name with
    quantizationBits := 8 }, ?_, rfl, ?_⟩
  · unfold aimodel.NewAIModel
    rw [if_neg hn, if_neg hp]
    show Except.ok
        (if (aimodel.mapGetD (aimodel.CreateModelsMap catalog).1 name).quantizationBits = 0
         then { aimodel.mapGetD (aimodel.CreateModelsMap catalog).1 name with
                  quantizationBits := 8 }
         else aimodel.mapGetD (aimodel.CreateModelsMap catalog).1 name) = _
    rw [if_pos hq]
  · unfold aimodel.ModelRequiredMemory
    rfl

/-- Witness for C4: `sampleCatalog` stores `gpt-4` with zero quantization
bits; the loader hands it out with 8 and its required memory uses the 8. -/
theorem quantizationBits_default_witness :
    ∃ mdl : aimodel.AIModel,
      aimodel.NewAIModel "gpt-4" "openai" sampleCatalog = .ok mdl ∧
      mdl.quantizationBits = 8 ∧
      aimodel.ModelRequiredMemory mdl =
        1.2 * mdl.architecture.Parameters.Total.Max * 8 / 8 :=
  quantizationBits_default "gpt-4" "openai" sampleCatalog (by decide) (by decide)
    (by norm_num [aimodel.mapGetD, aimodel.CreateModelsMap, aimodel.mapUpsert,
      sampleCatalog, sampleModel, List.lookup])

/-- Replacing an existing binding for a different key preserves the absence
of a key from a Go-map association list. -/
lemma lookup_map_replace_none (acc : List (String × aimodel.AIModel)) (k nm : String)
    (v : aimodel.AIModel) (hk : (nm == k) = false) (hacc : acc.lookup nm = none) :
    (acc.map (fun p => if p.1 == k then (k, v) else p)).lookup nm = none := by
  induction acc with
  | nil => rfl
  | cons p tl ih =>
    obtain ⟨pk, pv⟩ := p
    simp only [List.lookup] at hacc
    rcases hpk : (nm == pk) with _ | _
    · rw [hpk] at hacc
      rw [List.map_cons]
      by_cases hd : (pk == k) = true
      · rw [if_pos hd]
        simp only [List.lookup, hk]
        exact ih hacc
      · rw [if_neg hd]
        simp only [List.lookup, hpk]
        exact ih hacc
    · rw [hpk] at hacc
      simp at hacc

/-- Appending a binding for a different key preserves the absence of a key
from a Go-map association list. -/
lemma lookup_append_singleton_none (acc : List (String × aimodel.AIModel)) (k nm : String)
    (v : aimodel.AIModel) (hk : (nm == k) = false) (hacc : acc.lookup nm = none) :
    (acc ++ [(k, v)]).lookup nm = none := by
  induction acc with
  | nil => simp [List.lookup, hk]
  | cons p tl ih =>
    obtain ⟨pk, pv⟩ := p
    simp only [List.lookup] at hacc
    rcases hpk : (nm == pk) with _ | _
    · rw [hpk] at hacc
      simp only [List.cons_append, List.lookup, hpk]
      exact ih hacc
    · rw [hpk] at hacc
      simp at hacc

/-- A Go-map upsert for a different key preserves the absence of a key. -/
lemma lookup_mapUpsert_none (acc : List (String × aimodel.AIModel)) (k nm : String)
    (v : aimodel.AIModel) (hk : (nm == k) = false) (hacc : acc.lookup nm = none) :
    (aimodel.mapUpsert acc k v).lookup nm = none := by
  unfold aimodel.mapUpsert
  split
  · exact lookup_map_replace_none acc k nm v hk hacc
  · exact lookup_append_singleton_none acc k nm v hk hacc

/-- Folding Go-map insertions of models none of which carries the key
leaves the key absent. -/
lemma lookup_fold_none (l : List aimodel.AIModel) (acc : List (String × aimodel.AIModel))
    (nm : String) (hacc : acc.lookup nm = none)
    (h : ∀ mm ∈ l, (nm == mm.name) = false) :
    (l.foldl (fun acc2 mm => aimodel.mapUpsert acc2 mm.name mm) acc).lookup nm = none := by
  induction l generalizing acc with
  | nil => exact hacc
  | cons hd tl ih =>
    rw [List.foldl_cons]
    exact ih (aimodel.mapUpsert acc hd.name hd)
      (lookup_mapUpsert_none acc hd.name nm hd (h hd (List.mem_cons_self hd tl)) hacc)
      (fun mm hm => h mm (List.mem_cons_of_mem hd hm))

/-- C9: looking up a name that no catalog model carries reports no error:
the loader silently hands out the zero-valued model — empty name, empty
provider, zero parameter ranges — with `quantizationBits` defaulted to 8. -/
theorem unknown_model_zero (name provider : String) (catalog : aimodel.ModelData)
    (hn : ¬(name = "")) (hp : ¬(provider = ""))
    (habs : ∀ mm ∈ catalog.Models, mm.name ≠ name) :
    aimodel.NewAIModel name provider catalog =
      .ok { name := "", provider := "",
            architecture := ⟨"", ⟨⟨0, 0⟩, ⟨0, 0⟩⟩⟩,
            warnings := [], sources := [], quantizationBits := 8 } := by
  have hlook : ((aimodel.CreateModelsMap catalog).1).lookup name = none := by
    exact lookup_fold_none catalog.Models [] name rfl
      (fun mm hm => beq_eq_false_iff_ne.mpr (fun hcontra => habs mm hm hcontra.symm))
  have hget : aimodel.mapGetD (aimodel.CreateModelsMap catalog).1 name = aimodel.emptyAIModel := by
    unfold aimodel.mapGetD
    rw [hlook]
  unfold aimodel.NewAIModel
  rw [if_neg hn, if_neg hp]
  show Except.ok
      (if (aimodel.mapGetD (aimodel.CreateModelsMap catalog).1 name).quantizationBits = 0
       then { aimodel.mapGetD (aimodel.CreateModelsMap catalog).1 name with
                quantizationBits := 8 }
       else aimodel.mapGetD (aimodel.CreateModelsMap catalog).1 name) = _
  rw [hget]
  rfl

/-- Witness for C9: asking `sampleCatalog` for a name it does not contain
silently yields the zero model with quantization 8. -/
theorem unknown_model_zero_witness :
    aimodel.NewAIModel "unknown-model" "openai" sampleCatalog =
      .ok { name := "", provider := "",
            architecture := ⟨"", ⟨⟨0, 0⟩, ⟨0, 0⟩⟩⟩,
            warnings := [], sources := [], quantizationBits := 8 } :=
  unknown_model_zero "unknown-model" "openai" sampleCatalog (by decide) (by decide)
    (by
      intro mm hm
      have hmm : mm = sampleModel := by
        simpa [sampleCatalog] using hm
      subst hmm
      decide)
